import Mathlib

/-!
Verification of the RustProgramming tutorial repository.

Each Rust source file is shallowly embedded: the loop routines of
`src/concepts/src/main.rs` become fuel-indexed or structurally recursive Lean
functions returning the sequence of integer values they print (`Option`
models non-termination within the given fuel, `Except` models an
out-of-bounds panic); the string routines of `src/ownership/src/main.rs`
and `src/references_borrowing/src/main.rs` become pure functions on
`String`, with a small addressed store used to model heap allocation where
aliasing matters (`clone_data`).
-/

namespace RustProg

namespace Concepts

/-- Embeds the `loop` inside `return_values_from_loops`
(src/concepts/src/main.rs lines 96-102): each iteration increments the
counter by 1, and when the counter equals 10 the loop breaks carrying
`counter * 2`.  `fuel` bounds the number of iterations; `none` means the
loop did not finish within `fuel` steps. -/
def loopWithResult (fuel : Nat) (counter : Int) : Option Int :=
match fuel with
| 0 => none
| f + 1 =>
  let c := counter + 1
  if c == 10 then some (c * 2) else loopWithResult f c

/-- Embeds `return_values_from_loops` (lines 93-105): the counter starts at
0 and the loop result is bound to `_result`.  10 iterations suffice. -/
def return_values_from_loops : Option Int := loopWithResult 10 0

/-- Embeds the `while number != 0` loop of `condition_while_loop`
(lines 107-116), returning the list of numbers printed, in order.  The
counter is an `Int` as in the source (`i32`), so the loop only terminates
from positive starts; `fuel` bounds the iterations. -/
def countdownAux (fuel : Nat) (number : Int) : Option (List Int) :=
match fuel with
| 0 => none
| f + 1 =>
  if number == 0 then some []
  else (countdownAux f (number - 1)).map (fun rest => number :: rest)

/-- Embeds `condition_while_loop` (lines 107-116): `number` starts at 3;
the values printed before the final `Liftoff!` line. -/
def condition_while_loop : Option (List Int) := countdownAux 4 3

/-- The backing array `a = [10, 20, 30, 40, 50]` used by `loop_collection`
and `loop_collection_for` (lines 119 and 129). -/
def loop_collection_array : List Int := [10, 20, 30, 40, 50]

/-- Embeds the `while index < 5` loop of `loop_collection` (lines 122-125):
each pass reads `a[index]` (a panicking positional access, modelled by
`List.get?` with `Except.error` for the out-of-bounds branch) and then
increments `index`.  Returns the values printed, in order; `fuel` bounds
the iterations, with `none` meaning the loop did not finish within it. -/
def loopCollectionAux (a : List Int) (fuel : Nat) (index : Nat) : Option (Except String (List Int)) :=
match fuel with
| 0 => none
| f + 1 =>
  if index < 5 then
    match a.get? index with
    | none => some (Except.error "index out of bounds")
    | some v =>
      (loopCollectionAux a f (index + 1)).map (fun r => r.map (fun rest => v :: rest))
  else some (Except.ok [])

/-- Embeds `loop_collection` (lines 118-126): the indexed scan over
`[10, 20, 30, 40, 50]` starting at index 0.  6 fuel covers the five
iterations plus the final failed guard check. -/
def loop_collection : Option (Except String (List Int)) := loopCollectionAux loop_collection_array 6 0

/-- The values printed by `loop_collection` on its successful run. -/
def loop_collection_values : List Int :=
match loop_collection with
| some (Except.ok l) => l
| _ => []

/-- A `for element in a` loop that prints each element: the sequence of
printed values is the traversal of the list in order. -/
def forPrint (a : List Int) : List Int := a.foldr (fun x acc => x :: acc) []

/-- Embeds `loop_collection_for` (lines 128-134): the by-value scan over
the same backing array. -/
def loop_collection_for : List Int := forPrint loop_collection_array

/-- Embeds Rust's half-open integer range `s..e` as the list of values the
range iterator yields, in order. -/
def rustRange (s e : Int) : List Int := (List.range (e - s).toNat).map (fun i => s + i)

/-- Embeds `loop_range` (lines 137-141): `for number in 1..4` printing each
number. -/
def loop_range : List Int := forPrint (rustRange 1 4)

end Concepts

namespace Ownership

/-- Rust's `String::len`: the length of the buffer in UTF-8 bytes. -/
def rustStrLen (s : String) : Nat := s.utf8ByteSize

/-- Embeds `calculate_length` of src/ownership/src/main.rs (lines 211-214):
takes ownership of `s`, computes its length, and returns both the original
buffer and the length as a tuple. -/
def calculate_length (s : String) : String × Nat := (s, rustStrLen s)

/-- Embeds `takes_and_gives_back` (lines 199-201): receives ownership of
`a_string` and immediately returns it. -/
def takes_and_gives_back (a_string : String) : String := a_string

/-- Embeds `gives_ownership` (lines 192-196): constructs the owned buffer
`"yours"` and moves it to the caller. -/
def gives_ownership : String := "yours"

/-- A heap of owned text buffers: each cell is the backing storage of one
`String` value, addressed by its position. -/
structure Store where
  cells : List String
deriving DecidableEq

/-- Allocate a fresh cell holding `content`; returns the new store and the
address of the cell (models `String::from`). -/
def Store.alloc (st : Store) (content : String) : Store × Nat :=
(⟨st.cells ++ [content]⟩, st.cells.length)

/-- Read the contents of the cell at address `r`. -/
def Store.read (st : Store) (r : Nat) : Option String := st.cells.get? r

/-- Overwrite the contents of the cell at address `r` (models in-place
mutation of an owned buffer). -/
def Store.write (st : Store) (r : Nat) (content : String) : Store :=
⟨st.cells.set r content⟩

/-- Rust's `String::clone`: allocate a fresh cell whose contents copy the
cell at `r`; the clone shares no backing storage with the original. -/
def Store.cloneRef (st : Store) (r : Nat) : Store × Nat :=
st.alloc ((st.read r).getD "")

/-- Embeds `clone_data` (lines 159-172): `s1 = String::from("hello")`,
`s2 = s1.clone()`.  Returns the resulting store together with the addresses
of `s1` and `s2`. -/
def clone_data : Store × Nat × Nat :=
  let p1 := Store.alloc ⟨[]⟩ "hello"
  let p2 := Store.cloneRef p1.1 p1.2
  (p2.1, p1.2, p2.2)

/-- The store after `clone_data` has run. -/
def clone_store : Store := clone_data.1

/-- The address of `s1` inside `clone_data`. -/
def clone_r1 : Nat := clone_data.2.1

/-- The address of `s2` inside `clone_data`. -/
def clone_r2 : Nat := clone_data.2.2

/-- The line printed by `clone_data` (line 166), with the two buffer
contents read back from the store. -/
def clone_data_lines : List String :=
["s1 = " ++ ((clone_store.read clone_r1).getD "") ++ ", s2 = " ++ ((clone_store.read clone_r2).getD "")]

/-- Embeds `string_literal` (lines 71-110): `s = String::from("hello")`,
`s.push_str(", world!")`, then `s` is printed. -/
def string_literal_lines : List String := ["hello" ++ ", world!"]

/-- Embeds `multiple_variables` (lines 112-157): it prints nothing (the
only `println!` in it is commented out). -/
def multiple_variables_lines : List String := []

/-- The final line printed by `main` of src/ownership/src/main.rs
(lines 66-68): the length of `"hello"` computed by `calculate_length`,
printed together with the returned buffer. -/
def ownership_main_lines : List String :=
  let p := calculate_length "hello"
  ["The length of " ++ p.1 ++ " is " ++ toString p.2]

end Ownership

namespace RefBorrow

/-- Embeds `calculate_length` of src/references_borrowing/src/main.rs
(lines 13-15): receives only a borrowed view of the buffer and returns its
length; no ownership is handed back, so the return type carries the scalar
alone. -/
def calculate_length (s : String) : Nat := s.utf8ByteSize

/-- The line printed by `main` of src/references_borrowing/src/main.rs
(lines 2-4): `s1` is used again directly after the borrowed call. -/
def refborrow_main_lines : List String :=
  let s1 := "hello"
  let len := calculate_length s1
  ["The length of " ++ s1 ++ " is " ++ toString len]

end RefBorrow

/-- Running one demonstration routine on a console: the routine appends the
lines it prints to the console transcript.  No routine reads the transcript
or any other shared state, which is what `runRoutine` taking only its own
fixed output models. -/
def runRoutine {α : Type} (out console : List α) : List α := console ++ out

/-- The lines a routine contributes to the console when run from the state
`console`: everything past the prior transcript. -/
def routineDelta {α : Type} (out console : List α) : List α :=
(runRoutine out console).drop console.length

/-- The integer values printed by each loop routine invoked from `main` of
src/concepts/src/main.rs, in invocation order (lines 50-58). -/
def concepts_routine_outs : List (List Int) :=
[Concepts.return_values_from_loops.elim [] (fun v => [v]),
 Concepts.condition_while_loop.getD [],
 Concepts.loop_collection_values,
 Concepts.loop_collection_for,
 Concepts.loop_range]

/-- The lines printed by each routine invoked from `main` of
src/ownership/src/main.rs together with the final borrowed-read line of
src/references_borrowing/src/main.rs. -/
def string_routine_outs : List (List String) :=
[Ownership.string_literal_lines,
 Ownership.multiple_variables_lines,
 Ownership.clone_data_lines,
 Ownership.ownership_main_lines,
 RefBorrow.refborrow_main_lines]

/-- The delta a routine contributes to the console is its own output,
independent of the prior transcript. -/
theorem routineDelta_eq {α : Type} (out console : List α) : routineDelta out console = out := by
  simp [routineDelta, runRoutine]

/-- C1: in `return_values_from_loops`, the counter starts at 0 and is
incremented each iteration; the loop breaks when the counter equals 10,
carrying `counter * 2`, so the value bound to the result equals 20. -/
theorem return_values_from_loops_eq_twenty :
    Concepts.return_values_from_loops = some 20 := by decide

/-- C2: `calculate_length` of the ownership file, applied to `"hello"`,
returns the pair whose scalar component is 5 and whose buffer component is
the unchanged input `"hello"`. -/
theorem calculate_length_hello :
    Ownership.calculate_length "hello" = ("hello", 5) := by decide

/-- C3: the indexed while-loop scan `loop_collection` and the by-value for
loop `loop_collection_for`, both over the backing array
`[10, 20, 30, 40, 50]`, print the identical ordering 10, 20, 30, 40, 50. -/
theorem sequence_scans_agree :
    Concepts.loop_collection = some (Except.ok Concepts.loop_collection_for) ∧
    Concepts.loop_collection_for = [10, 20, 30, 40, 50] := by
  exact ⟨rfl, by decide⟩

/-- C4: `loop_range` iterates the half-open range `1..4` and prints exactly
1, 2, 3 in order, the end value 4 excluded. -/
theorem loop_range_out : Concepts.loop_range = [1, 2, 3] := by decide

/-- C5: in `clone_data`, immediately after the clone both buffers hold the
same content `"hello"`, the clone lives at a distinct address from the
original (no shared backing storage), and writing any content through
either address leaves the other buffer's content untouched. -/
theorem clone_data_independent :
    ∀ c : String,
      Ownership.clone_store.read Ownership.clone_r1 =
        Ownership.clone_store.read Ownership.clone_r2 ∧
      Ownership.clone_store.read Ownership.clone_r1 = some "hello" ∧
      Ownership.clone_r1 ≠ Ownership.clone_r2 ∧
      (Ownership.clone_store.write Ownership.clone_r1 c).read Ownership.clone_r2 =
        Ownership.clone_store.read Ownership.clone_r2 ∧
      (Ownership.clone_store.write Ownership.clone_r2 c).read Ownership.clone_r1 =
        Ownership.clone_store.read Ownership.clone_r1 := by
  intro c
  exact ⟨rfl, rfl, by decide, rfl, rfl⟩

/-- C6: the borrow-based `calculate_length` of the references file computes
the same scalar as the ownership-taking `calculate_length` of the ownership
file on every buffer content, the ownership-taking version hands the buffer
back unchanged, and the borrow-based version returns the scalar alone while
the owner keeps using the buffer (the borrowed call in `main` prints the
still-owned `s1` next to the computed length). -/
theorem borrow_matches_ownership_length :
    (∀ s : String,
      RefBorrow.calculate_length s = (Ownership.calculate_length s).2 ∧
      (Ownership.calculate_length s).1 = s) ∧
    RefBorrow.refborrow_main_lines = ["The length of hello is 5"] := by
  exact ⟨fun s => ⟨rfl, rfl⟩, by decide⟩

/-- C7: `takes_and_gives_back` returns to the caller exactly the owned
buffer it was passed, with identical content, for every input. -/
theorem takes_and_gives_back_id :
    ∀ s : String, Ownership.takes_and_gives_back s = s := fun _ => rfl

/-- C8: every loop invoked from `main` terminates: the counter loop breaks
at 10 with result 20, the countdown while loop runs 3, 2, 1 and exits, the
indexed while loop completes all five accesses without hitting the panic
branch, and both for loops yield their full finite output, so each routine
runs to completion with no failing path. -/
theorem all_loops_terminate :
    Concepts.return_values_from_loops = some 20 ∧
    Concepts.condition_while_loop = some [3, 2, 1] ∧
    Concepts.loop_collection = some (Except.ok [10, 20, 30, 40, 50]) ∧
    Concepts.loop_collection_for = [10, 20, 30, 40, 50] ∧
    Concepts.loop_range = [1, 2, 3] := by
  refine ⟨by decide, by decide, rfl, by decide, by decide⟩

/-- C9: every demonstration routine is deterministic and independent: the
lines a routine appends to the console do not depend on the transcript it
starts from (so reordering independent runs never changes a routine's
output), and running a routine a second time, right after itself, appends
the identical lines again. -/
theorem routines_deterministic_idempotent :
    (∀ r ∈ concepts_routine_outs, ∀ s t : List Int,
      routineDelta r s = routineDelta r t ∧
      routineDelta r (runRoutine r s) = routineDelta r s) ∧
    (∀ r ∈ string_routine_outs, ∀ s t : List String,
      routineDelta r s = routineDelta r t ∧
      routineDelta r (runRoutine r s) = routineDelta r s) := by
  constructor
  · intro r _ s t
    exact ⟨(routineDelta_eq r s).trans (routineDelta_eq r t).symm,
           (routineDelta_eq r _).trans (routineDelta_eq r s).symm⟩
  · intro r _ s t
    exact ⟨(routineDelta_eq r s).trans (routineDelta_eq r t).symm,
           (routineDelta_eq r _).trans (routineDelta_eq r s).symm⟩

/-- Witness for C9: the countdown routine appends the same lines whether it
runs on an empty console or after another routine has printed, and a second
back-to-back run appends them again. -/
theorem routines_deterministic_idempotent_witness :
    routineDelta (Concepts.condition_while_loop.getD []) ([] : List Int) =
      routineDelta (Concepts.condition_while_loop.getD []) [20] ∧
    routineDelta (Concepts.condition_while_loop.getD [])
        (runRoutine (Concepts.condition_while_loop.getD []) []) =
      routineDelta (Concepts.condition_while_loop.getD []) [] :=
  routines_deterministic_idempotent.1 (Concepts.condition_while_loop.getD [])
    (by decide) [] [20]

/-- C10: in `loop_collection` every positional access happens under the
guard `index < 5`, which equals the length of the backing array, so every
access is in bounds and the out-of-bounds panic branch is never taken: the
run returns the full value list rather than an error. -/
theorem loop_collection_inbounds :
    Concepts.loop_collection = some (Except.ok [10, 20, 30, 40, 50]) ∧
    Concepts.loop_collection_array.length = 5 ∧
    ∀ index : Nat, index < 5 →
      (Concepts.loop_collection_array.get? index).isSome = true := by
  refine ⟨rfl, by decide, ?_⟩
  intro index h
  interval_cases index <;> decide

/-- Witness for C10: the last access, at index 4, is in bounds. -/
theorem loop_collection_inbounds_witness :
    (Concepts.loop_collection_array.get? 4).isSome = true :=
  loop_collection_inbounds.2.2 4 (by decide)

end RustProg
